import Mathlib

/-!
Shallow embedding of the financial analytics core of the repository
(`src/utils/financialForecasting.ts`), together with proofs of the
specification claims about it.

Modelling conventions:
* JavaScript numbers are modelled as exact rationals (`ℚ`).  Where the
  source may divide by zero we model the IEEE behaviour (Infinity / NaN)
  explicitly with the `JsNum` type, so that the embedded comparisons agree
  with the JavaScript ones on every input.
* `Math.round x` is `⌊x + 1/2⌋` (JavaScript rounds halves towards +∞).
* A JavaScript `Date` is decomposed as a calendar month index (an integer,
  e.g. year*12+month) together with the millisecond offset inside that
  month; the timestamp order is exactly the lexicographic order on these
  pairs.  The month lengths and the locale month labels are injected as
  parameters (`monthLen`, `fmtMonth`, …), mirroring the spec's demand for
  an injectable calendar/clock.
* `date-fns` is an external dependency whose source is not in the
  repository; `eachMonthOfInterval` and `subMonths` are modelled from the
  library's documented behaviour (v3+: a reversed interval yields the
  months in reversed order; `subMonths` shifts the month index keeping the
  position in the month — end-of-month clamping is irrelevant to the
  claims and not modelled).
-/

namespace FinForecast

/-- JavaScript `Math.round`: round half towards positive infinity. -/
def jsRound (q : ℚ) : ℤ := ⌊q + 1/2⌋

/-- A JavaScript number: either a finite value (kept exact as a rational)
or one of the IEEE special values produced by division by zero. -/
inductive JsNum where
  | fin (q : ℚ)
  | posInf
  | negInf
  | nan
deriving DecidableEq, Repr

/-- JavaScript division `a / b` (the denominator the code may zero out). -/
def jsDivQ (a b : ℚ) : JsNum :=
  if b = 0 then (if a = 0 then .nan else if 0 < a then .posInf else .negInf)
  else .fin (a / b)

/-- JavaScript multiplication of a possibly non-finite value by a finite one. -/
def jsMulQ : JsNum → ℚ → JsNum
  | .fin q, c => .fin (q * c)
  | .posInf, c => if 0 < c then .posInf else if c < 0 then .negInf else .nan
  | .negInf, c => if 0 < c then .negInf else if c < 0 then .posInf else .nan
  | .nan, _ => .nan

/-- JavaScript comparison `x < c` with a finite right-hand side
(NaN compares false). -/
def jsLtQ : JsNum → ℚ → Bool
  | .fin q, c => decide (q < c)
  | .posInf, _ => false
  | .negInf, _ => true
  | .nan, _ => false

/-- JavaScript comparison `x > c` with a finite right-hand side
(NaN compares false). -/
def jsGtQ : JsNum → ℚ → Bool
  | .fin q, c => decide (c < q)
  | .posInf, _ => true
  | .negInf, _ => false
  | .nan, _ => false

/-- Rendering of `Math.round x` inside a template string:
`${Math.round(x)}` prints the integer, or Infinity / NaN verbatim. -/
def jsRoundStr : JsNum → String
  | .fin q => toString (jsRound q)
  | .posInf => "Infinity"
  | .negInf => "-Infinity"
  | .nan => "NaN"

/-- A JavaScript `Date`, decomposed as calendar-month index and millisecond
offset within the month.  Timestamp order is lexicographic on the pair. -/
structure Date where
  month : ℤ
  off : ℕ
deriving DecidableEq, Repr

/-- Timestamp order `d ≤ e` on decomposed dates. -/
def dateLe (d e : Date) : Bool :=
  decide (d.month < e.month ∨ (d.month = e.month ∧ d.off ≤ e.off))

/-- Timestamp order `d < e` on decomposed dates. -/
def dateLt (d e : Date) : Bool :=
  decide (d.month < e.month ∨ (d.month = e.month ∧ d.off < e.off))

/-- date-fns `subMonths`: step the month index back, keeping the position
inside the month (end-of-month clamping is not modelled; the claims only
use the results as window cutoffs). -/
def subMonthsD (d : Date) (k : ℕ) : Date := ⟨d.month - k, d.off⟩

/-- date-fns `startOfMonth` as a decomposed date. -/
def startOfMonthD (m : ℤ) : Date := ⟨m, 0⟩

/-- date-fns `endOfMonth` (the last millisecond of the month), given the
length `monthLen m` of month `m` in milliseconds. -/
def endOfMonthD (monthLen : ℤ → ℕ) (m : ℤ) : Date := ⟨m, monthLen m - 1⟩

/-- date-fns `eachMonthOfInterval`, reduced to the month indices: every
month from the start's month to the end's month.  Modelled from the
documented v3+ behaviour: a reversed interval yields the same months in
reversed order (v2 instead threw a RangeError; in no version is the
result empty). -/
def eachMonthOfInterval (s e : Date) : List ℤ :=
  if s.month ≤ e.month then
    (List.range (e.month - s.month + 1).toNat).map (fun k : ℕ => s.month + (k : ℤ))
  else
    (List.range (s.month - e.month + 1).toNat).map (fun k : ℕ => s.month - (k : ℤ))

/-- Transaction kind. -/
inductive TxType where
  | income
  | expense
deriving DecidableEq, Repr

/-- A ledger transaction.  Only the fields the analytics core reads are
modelled (`amount`, `type`, `category_id`, `category`, `date`); `id`,
`user_id`, `description` and `created_at` are never consulted by it.
(NB: the TypeScript `Transaction` type declares `category_id` but not
`category`; `analyzeSpendingPatterns` nevertheless reads `t.category`,
so both appear here.) -/
structure Transaction where
  amount : ℚ
  category_id : String
  category : String
  type : TxType
  date : Date
deriving DecidableEq, Repr

/-- Per-category entry of `MonthlyStats.categories`. -/
structure CatStat where
  amount : ℚ
  trend : ℚ
deriving DecidableEq, Repr

/-- `MonthlyStats`.  The `categories` map is kept as an association list in
insertion order.  `savings` and `debt` are read by `assessFinancialRisk`
and `generateAIRecommendations` although the TypeScript interface does not
declare them and the aggregator never writes them; per the spec they are
assumed to be supplied out of band, so they are modelled as plain fields. -/
structure MonthlyStats where
  month : String
  income : ℚ
  expenses : ℚ
  balance : ℚ
  categories : List (String × CatStat)
  savings : ℚ
  debt : ℚ
deriving DecidableEq, Repr

/-- A fresh all-zero stats record for one month. -/
def initStats (label : String) : MonthlyStats :=
  ⟨label, 0, 0, 0, [], 0, 0⟩

/-- `stats.categories[t.category_id].amount += signed amount`, initialising
the entry to `{amount: 0, trend: 0}` when absent. -/
def updateAmount : List (String × CatStat) → String → ℚ → List (String × CatStat)
  | [], key, d => [(key, ⟨0 + d, 0⟩)]
  | (k, c) :: rest, key, d =>
      if k = key then (k, ⟨c.amount + d, c.trend⟩) :: rest
      else (k, c) :: updateAmount rest key d

/-- One iteration of the `monthTransactions.forEach` body of
`calculateMonthlyStats`. -/
def applyTx (s : MonthlyStats) (t : Transaction) : MonthlyStats :=
  let s' :=
    match t.type with
    | .income => { s with income := s.income + t.amount, balance := s.balance + t.amount }
    | .expense => { s with expenses := s.expenses + t.amount, balance := s.balance - t.amount }
  let signed := match t.type with | .income => t.amount | .expense => -t.amount
  { s' with categories := updateAmount s'.categories t.category_id signed }

/-- `calculateMonthlyStats(transactions, startDate, endDate)`.
`monthLen` gives each month's length in milliseconds and `fmtMonth` is the
`format(month, 'yyyy-MM')` labelling, both injected (spec §3: calendar and
formatting are external). -/
def calculateMonthlyStats (monthLen : ℤ → ℕ) (fmtMonth : ℤ → String)
    (transactions : List Transaction) (startDate endDate : Date) : List MonthlyStats :=
  let months := eachMonthOfInterval startDate endDate
  months.map (fun m =>
    let monthStart := startOfMonthD m
    let monthEnd := endOfMonthD monthLen m
    let monthTransactions := transactions.filter
      (fun t => dateLe monthStart t.date && dateLe t.date monthEnd)
    monthTransactions.foldl applyTx (initStats (fmtMonth m)))

/-- `Forecast`.  Every value written to the three numeric fields by the
source is an integer (`0` or a `Math.round` result), so they are `ℤ`. -/
structure Forecast where
  predictedIncome : ℤ
  predictedExpenses : ℤ
  predictedBalance : ℤ
  riskLevel : String
  recommendations : List String
deriving DecidableEq, Repr

/-- `incomeChangeSum` of the `for` loop in `generateForecast` /
`generateMonthlyForecast`: the sum of `stats[i].income - stats[i-1].income`. -/
def incomeChangeSum (l : List MonthlyStats) : ℚ :=
  ((l.zip l.tail).map (fun p => p.2.income - p.1.income)).sum

/-- `expensesChangeSum` of the same loop. -/
def expensesChangeSum (l : List MonthlyStats) : ℚ :=
  ((l.zip l.tail).map (fun p => p.2.expenses - p.1.expenses)).sum

/-- `avgIncomeChange = incomeChangeSum / (monthlyStats.length - 1)`. -/
def avgIncomeChange (l : List MonthlyStats) : ℚ :=
  incomeChangeSum l / ((l.length : ℚ) - 1)

/-- `avgExpensesChange = expensesChangeSum / (monthlyStats.length - 1)`. -/
def avgExpensesChange (l : List MonthlyStats) : ℚ :=
  expensesChangeSum l / ((l.length : ℚ) - 1)

/-- `lastMonth = monthlyStats[monthlyStats.length - 1]` (only read when the
list has at least two entries, so the default is never consulted). -/
def lastMonthOf (l : List MonthlyStats) : MonthlyStats :=
  l.getLastD (initStats "")

/-- `predictedIncome = Math.round(lastMonth.income + avgIncomeChange)`. -/
def predictedIncomeOf (l : List MonthlyStats) : ℤ :=
  jsRound ((lastMonthOf l).income + avgIncomeChange l)

/-- `predictedExpenses = Math.round(lastMonth.expenses + avgExpensesChange)`. -/
def predictedExpensesOf (l : List MonthlyStats) : ℤ :=
  jsRound ((lastMonthOf l).expenses + avgExpensesChange l)

/-- `generateForecast(monthlyStats)`. -/
def generateForecast (monthlyStats : List MonthlyStats) : Forecast :=
  if monthlyStats.length < 2 then
    ⟨0, 0, 0, "medium", ["Not enough data for accurate forecast"]⟩
  else
    let predictedIncome := predictedIncomeOf monthlyStats
    let predictedExpenses := predictedExpensesOf monthlyStats
    let predictedBalance := jsRound ((predictedIncome : ℚ) - (predictedExpenses : ℚ))
    let riskLevel :=
      if predictedBalance < 0 then "high"
      else if jsGtQ (jsDivQ (predictedExpenses : ℚ) (predictedIncome : ℚ)) 0.8 then "medium"
      else "low"
    let recommendations :=
      (if predictedBalance < 0 then
        ["Reduce non-essential expenses to avoid negative balance"] else []) ++
      (if jsGtQ (jsDivQ (predictedExpenses : ℚ) (predictedIncome : ℚ)) 0.8 then
        ["Consider increasing income sources or reducing expenses"] else []) ++
      (if 0 < avgExpensesChange monthlyStats then
        ["Your expenses are trending upward, consider budgeting"] else []) ++
      (if avgIncomeChange monthlyStats < 0 then
        ["Your income is trending downward, explore additional income sources"] else [])
    let recommendations :=
      if recommendations.isEmpty then ["Continue your current financial habits"]
      else recommendations
    ⟨predictedIncome, predictedExpenses, predictedBalance, riskLevel, recommendations⟩

/-- Spending trend classification. -/
inductive TrendKind where
  | increasing
  | decreasing
  | stable
deriving DecidableEq, Repr

/-- The JavaScript string a `TrendKind` interpolates to. -/
def trendStr : TrendKind → String
  | .increasing => "increasing"
  | .decreasing => "decreasing"
  | .stable => "stable"

/-- `SpendingPattern`.  `percentageChange` and `amount` are `Math.round`
results, hence `ℤ`. -/
structure SpendingPattern where
  category : String
  trend : TrendKind
  percentageChange : ℤ
  isUnusual : Bool
  amount : ℤ
deriving DecidableEq, Repr

/-- `[...new Set(xs)]`: deduplication keeping the first occurrence order. -/
def dedupFirst (l : List String) : List String :=
  l.foldl (fun acc c => if c ∈ acc then acc else acc ++ [c]) []

/-- The recent-window total of a category in `analyzeSpendingPatterns`:
transactions of that category dated `≥ subMonths(now, 1)`. -/
def recentTotalOf (now : Date) (transactions : List Transaction) (category : String) : ℚ :=
  (((transactions.filter (fun t => t.category = category)).filter
      (fun t => dateLe (subMonthsD now 1) t.date)).map (fun t => t.amount)).sum

/-- The older-window total: transactions of the category dated
`< subMonths(now, 1)` and `≥ subMonths(now, 2)`. -/
def olderTotalOf (now : Date) (transactions : List Transaction) (category : String) : ℚ :=
  (((transactions.filter (fun t => t.category = category)).filter
      (fun t => dateLt t.date (subMonthsD now 1) && dateLe (subMonthsD now 2) t.date)).map
    (fun t => t.amount)).sum

/-- The pre-rounding `percentageChange` of one category:
`(recent - older) / older * 100`, with the literal `100` sentinel when the
older-window total is exactly zero. -/
def rawChange (now : Date) (transactions : List Transaction) (category : String) : ℚ :=
  if olderTotalOf now transactions category = 0 then 100
  else (recentTotalOf now transactions category - olderTotalOf now transactions category) /
    olderTotalOf now transactions category * 100

/-- The `SpendingPattern` pushed for one category by
`analyzeSpendingPatterns`. -/
def mkPattern (now : Date) (transactions : List Transaction) (category : String) :
    SpendingPattern :=
  let percentageChange := rawChange now transactions category
  let trend : TrendKind :=
    if |percentageChange| < 5 then .stable
    else if 0 < percentageChange then .increasing
    else .decreasing
  ⟨category, trend, jsRound percentageChange, decide (30 < |percentageChange|),
    jsRound (recentTotalOf now transactions category)⟩

/-- `analyzeSpendingPatterns(transactions)`, with the wall-clock read
`new Date()` injected as `now`. -/
def analyzeSpendingPatterns (now : Date) (transactions : List Transaction) :
    List SpendingPattern :=
  (dedupFirst (transactions.map (fun t => t.category))).map (mkPattern now transactions)

/-- `FinancialInsight` kind. -/
inductive InsightType where
  | success
  | warning
  | info
  | danger
deriving DecidableEq, Repr

/-- `FinancialInsight` (`actionItems` is optional in the source). -/
structure FinancialInsight where
  type : InsightType
  title : String
  description : String
  actionItems : Option (List String)
deriving DecidableEq, Repr

/-- The low-savings-rate warning insight, parameterised by the printed
`Math.round(savingsRate)` text. -/
def lowSavingsInsight (rate : String) : FinancialInsight :=
  ⟨.warning, "Low Savings Rate",
    "Your current savings rate is " ++ rate ++ "%. Consider aiming for at least 20%.",
    some ["Review non-essential expenses",
      "Set up automatic savings transfers",
      "Look for additional income opportunities"]⟩

/-- The per-unusual-pattern insights of `generateFinancialInsights`. -/
def patternInsightsOf (spendingPatterns : List SpendingPattern) : List FinancialInsight :=
  (spendingPatterns.filter (fun p => p.isUnusual)).map (fun pattern =>
    ⟨.info, "Unusual " ++ pattern.category ++ " Spending",
      "Your " ++ pattern.category ++ " spending has " ++ trendStr pattern.trend ++
        " by " ++ toString pattern.percentageChange.natAbs ++ "% compared to last month.",
      if pattern.trend = .increasing then
        some ["Review recent " ++ pattern.category ++ " expenses",
          "Look for more cost-effective alternatives",
          "Set a budget for this category"]
      else none⟩)

/-- The large-transaction insight of `generateFinancialInsights`
(`fmtAmount` renders `${t.amount}` and `fmtDate` renders
`format(new Date(t.date), 'MMM d')`). -/
def largeTxInsightsOf (fmtAmount : ℚ → String) (fmtDate : Date → String)
    (transactions : List Transaction) (monthlyStats : MonthlyStats) : List FinancialInsight :=
  let highValueTransactions :=
    (transactions.filter (fun t => monthlyStats.income * 0.2 < t.amount)).take 3
  if highValueTransactions.isEmpty then []
  else
    [⟨.info, "Large Transactions Detected",
      "You have some significant expenses that might impact your budget.",
      some (highValueTransactions.map (fun t =>
        "Review " ++ t.category ++ " expense of $" ++ fmtAmount t.amount ++
          " on " ++ fmtDate t.date))⟩]

/-- `generateFinancialInsights(transactions, monthlyStats, spendingPatterns)`. -/
def generateFinancialInsights (fmtAmount : ℚ → String) (fmtDate : Date → String)
    (transactions : List Transaction) (monthlyStats : MonthlyStats)
    (spendingPatterns : List SpendingPattern) : List FinancialInsight :=
  let savingsRate :=
    jsMulQ (jsDivQ (monthlyStats.income - monthlyStats.expenses) monthlyStats.income) 100
  (if jsLtQ savingsRate 20 then [lowSavingsInsight (jsRoundStr savingsRate)] else []) ++
    patternInsightsOf spendingPatterns ++
    largeTxInsightsOf fmtAmount fmtDate transactions monthlyStats

/-- Risk level of a `RiskAssessment`. -/
inductive RiskLevel where
  | low
  | medium
  | high
deriving DecidableEq, Repr

/-- Rank used to state level monotonicity: low < medium < high. -/
def levelRank : RiskLevel → ℕ
  | .low => 0
  | .medium => 1
  | .high => 2

/-- `RiskAssessment`. -/
structure RiskAssessment where
  level : RiskLevel
  factors : List String
  mitigationSteps : List String
deriving DecidableEq, Repr

/-- The state of `assessFinancialRisk` before any sub-check runs. -/
def initialRisk : RiskAssessment := ⟨.low, [], []⟩

/-- First sub-check of `assessFinancialRisk`: the expense/income ratio. -/
def riskStep1 (monthlyStats : MonthlyStats) (r : RiskAssessment) : RiskAssessment :=
  let expenseRatio := jsDivQ monthlyStats.expenses monthlyStats.income
  if jsGtQ expenseRatio 0.9 then
    ⟨.high, r.factors ++ ["High expense to income ratio"],
      r.mitigationSteps ++ ["Reduce non-essential expenses"]⟩
  else if jsGtQ expenseRatio 0.7 then
    ⟨.medium, r.factors ++ ["Elevated expense to income ratio"],
      r.mitigationSteps ++ ["Monitor spending in major categories"]⟩
  else r

/-- Second sub-check: volatile (unusual) spending-pattern count. -/
def riskStep2 (spendingPatterns : List SpendingPattern) (r : RiskAssessment) :
    RiskAssessment :=
  let volatileCategories := spendingPatterns.filter (fun p => p.isUnusual)
  if 3 ≤ volatileCategories.length then
    ⟨.high, r.factors ++ ["Multiple categories with unusual spending patterns"],
      r.mitigationSteps ++ ["Review and stabilize spending across categories"]⟩
  else if 0 < volatileCategories.length then
    ⟨if r.level = .high then .high else .medium,
      r.factors ++ ["Some categories show unusual spending patterns"],
      r.mitigationSteps ++ ["Monitor categories with unusual spending"]⟩
  else r

/-- Third sub-check: the emergency-fund ratio `savings / (expenses * 3)`. -/
def riskStep3 (monthlyStats : MonthlyStats) (r : RiskAssessment) : RiskAssessment :=
  let emergencyFundRatio := jsDivQ monthlyStats.savings (monthlyStats.expenses * 3)
  if jsLtQ emergencyFundRatio 0.5 then
    ⟨.high, r.factors ++ ["Insufficient emergency fund"],
      r.mitigationSteps ++ ["Build emergency fund to cover 3 months of expenses"]⟩
  else if jsLtQ emergencyFundRatio 1 then
    ⟨if r.level = .high then .high else .medium,
      r.factors ++ ["Emergency fund below target"],
      r.mitigationSteps ++ ["Continue building emergency fund"]⟩
  else r

/-- `assessFinancialRisk(monthlyStats, spendingPatterns)`: the three
sub-checks run in order on the initial low/empty state. -/
def assessFinancialRisk (monthlyStats : MonthlyStats)
    (spendingPatterns : List SpendingPattern) : RiskAssessment :=
  riskStep3 monthlyStats (riskStep2 spendingPatterns (riskStep1 monthlyStats initialRisk))

/-- One entry of the `generateMonthlyForecast` result.  Every numeric value
the source writes into it is an integer. -/
structure MonthForecastEntry where
  month : String
  income : ℤ
  expenses : ℤ
  balance : ℤ
deriving DecidableEq, Repr

/-- `generateMonthlyForecast(monthlyStats, months)`; `monthName k` stands
for `format(addMonths(new Date(), k), 'MMM')`. -/
def generateMonthlyForecast (monthName : ℕ → String) (monthlyStats : List MonthlyStats)
    (months : ℕ) : List MonthForecastEntry :=
  if monthlyStats.length < 2 then
    (List.range months).map (fun i => ⟨monthName (i + 1), 0, 0, 0⟩)
  else
    let lastMonth := lastMonthOf monthlyStats
    (List.range months).map (fun k =>
      let i : ℕ := k + 1
      let predictedIncome :=
        jsRound (lastMonth.income + avgIncomeChange monthlyStats * (i : ℚ))
      let predictedExpenses :=
        jsRound (lastMonth.expenses + avgExpensesChange monthlyStats * (i : ℚ))
      ⟨monthName i, predictedIncome, predictedExpenses, predictedIncome - predictedExpenses⟩)

/-! Helper lemmas shared by the claim theorems. -/

/-- `Math.round` of an integer value is that integer. -/
lemma jsRound_intCast (n : ℤ) : jsRound (n : ℚ) = n := by
  unfold jsRound
  rw [show ((n : ℚ) + 1/2 : ℚ) = (1/2 : ℚ) + (n : ℤ) from by ring, Int.floor_add_int]
  norm_num

/-- The per-transaction accumulation step preserves
`balance = income - expenses`. -/
lemma applyTx_inv (s : MonthlyStats) (t : Transaction)
    (h : s.balance = s.income - s.expenses) :
    (applyTx s t).balance = (applyTx s t).income - (applyTx s t).expenses := by
  cases ht : t.type <;> simp [applyTx, ht] <;> linarith

/-- Folding the accumulation step over any transaction list preserves
`balance = income - expenses`. -/
lemma foldl_applyTx_inv (l : List Transaction) :
    ∀ s : MonthlyStats, s.balance = s.income - s.expenses →
      (l.foldl applyTx s).balance =
        (l.foldl applyTx s).income - (l.foldl applyTx s).expenses := by
  induction l with
  | nil => intro s h; simpa using h
  | cons t l ih => intro s h; simpa using ih _ (applyTx_inv s t h)

/-- Balances summing to income minus expenses, given the per-entry
invariant. -/
lemma sum_balance_eq (res : List MonthlyStats)
    (h : ∀ st ∈ res, st.balance = st.income - st.expenses) :
    (res.map (fun st => st.balance)).sum =
      (res.map (fun st => st.income)).sum - (res.map (fun st => st.expenses)).sum := by
  induction res with
  | nil => simp
  | cons a l ih =>
    simp only [List.map_cons, List.sum_cons]
    rw [h a (by simp), ih (fun st hst => h st (by simp [hst]))]
    ring

/-- Every entry `calculateMonthlyStats` produces satisfies
`balance = income - expenses`. -/
lemma calculateMonthlyStats_mem_inv (monthLen : ℤ → ℕ) (fmtMonth : ℤ → String)
    (transactions : List Transaction) (startDate endDate : Date) :
    ∀ st ∈ calculateMonthlyStats monthLen fmtMonth transactions startDate endDate,
      st.balance = st.income - st.expenses := by
  intro st hst
  simp only [calculateMonthlyStats, List.mem_map] at hst
  obtain ⟨m, _, rfl⟩ := hst
  exact foldl_applyTx_inv _ _ (by simp [initStats])

/-- `levelRank` never exceeds the rank of `high`. -/
lemma levelRank_le_two (l : RiskLevel) : levelRank l ≤ 2 := by
  cases l <;> simp [levelRank]

/-- Membership in the first-occurrence deduplication fold. -/
lemma mem_foldl_dedup (c : String) : ∀ (l acc : List String),
    (c ∈ l.foldl (fun acc x => if x ∈ acc then acc else acc ++ [x]) acc) ↔
      c ∈ acc ∨ c ∈ l := by
  intro l
  induction l with
  | nil => intro acc; simp
  | cons a l ih =>
    intro acc
    rw [List.foldl_cons, ih]
    by_cases h : a ∈ acc
    · simp only [if_pos h, List.mem_cons]
      constructor
      · rintro (h1 | h1)
        · exact Or.inl h1
        · exact Or.inr (Or.inr h1)
      · rintro (h1 | h1 | h1)
        · exact Or.inl h1
        · exact Or.inl (h1 ▸ h)
        · exact Or.inr h1
    · simp only [if_neg h, List.mem_append, List.mem_singleton, List.mem_cons]
      tauto

/-- `[...new Set(xs)]` keeps exactly the members of `xs`. -/
lemma mem_dedupFirst {c : String} {l : List String} : c ∈ dedupFirst l ↔ c ∈ l := by
  unfold dedupFirst
  rw [mem_foldl_dedup]
  simp

/-- `Math.round` of `0 - n` for an integer `n`. -/
lemma jsRound_zero_sub_intCast (n : ℤ) : jsRound ((0 : ℚ) - (n : ℚ)) = -n := by
  rw [show (0 : ℚ) - (n : ℚ) = ((-n : ℤ) : ℚ) from by push_cast; ring, jsRound_intCast]

/-! The claim theorems. -/

/-- Claim C1: every `MonthlyStats` entry returned by
`calculateMonthlyStats` satisfies `balance = income - expenses`, and the
sum of `balance` over all returned months equals the total income minus
the total expenses over the whole queried range. -/
theorem calculateMonthlyStats_balance_invariant (monthLen : ℤ → ℕ)
    (fmtMonth : ℤ → String) (transactions : List Transaction)
    (startDate endDate : Date) :
    (calculateMonthlyStats monthLen fmtMonth transactions startDate endDate).Forall
        (fun st => st.balance = st.income - st.expenses) ∧
    ((calculateMonthlyStats monthLen fmtMonth transactions startDate endDate).map
        (fun st => st.balance)).sum =
      ((calculateMonthlyStats monthLen fmtMonth transactions startDate endDate).map
          (fun st => st.income)).sum -
        ((calculateMonthlyStats monthLen fmtMonth transactions startDate endDate).map
            (fun st => st.expenses)).sum := by
  have hall := calculateMonthlyStats_mem_inv monthLen fmtMonth transactions startDate endDate
  exact ⟨List.forall_iff_forall_mem.mpr hall, sum_balance_eq _ hall⟩

/-- Claim C2: `assessFinancialRisk` is monotonic upward within a single
call: the second and third sub-checks never lower the incoming level (in
particular an already-`high` level stays `high`), the first sub-check runs
on the initial `low` state and can only raise it, and the function is
exactly the in-order composition of the three sub-checks. -/
theorem assessFinancialRisk_monotone (m : MonthlyStats)
    (ps : List SpendingPattern) (r : RiskAssessment) :
    levelRank r.level ≤ levelRank (riskStep2 ps r).level ∧
    levelRank r.level ≤ levelRank (riskStep3 m r).level ∧
    assessFinancialRisk m ps =
      riskStep3 m (riskStep2 ps (riskStep1 m initialRisk)) ∧
    levelRank initialRisk.level ≤ levelRank (riskStep1 m initialRisk).level := by
  refine ⟨?_, ?_, rfl, Nat.zero_le _⟩
  · simp only [riskStep2]
    split
    · exact le_trans (levelRank_le_two _) (by simp [levelRank])
    · split
      · cases hr : r.level <;> simp [levelRank, hr]
      · exact le_refl _
  · simp only [riskStep3]
    split
    · exact le_trans (levelRank_le_two _) (by simp [levelRank])
    · split
      · cases hr : r.level <;> simp [levelRank, hr]
      · exact le_refl _

/-- Claim C4: on the monthly stats
`[{income: 1000, expenses: 800}, {income: 1200, expenses: 760}]`,
`generateForecast` predicts income 1400, expenses 720, balance 680 and
risk level "low". -/
theorem generateForecast_example :
    generateForecast [⟨"", 1000, 800, 200, [], 0, 0⟩, ⟨"", 1200, 760, 440, [], 0, 0⟩] =
      ⟨1400, 720, 680, "low", ["Continue your current financial habits"]⟩ := by
  norm_num [generateForecast, predictedIncomeOf, predictedExpensesOf, lastMonthOf,
    avgIncomeChange, avgExpensesChange, incomeChangeSum, expensesChangeSum, jsRound,
    jsGtQ, jsDivQ, initStats]

/-- Claim C3: when a category's older-window total is exactly zero,
`analyzeSpendingPatterns` reports for that category the fixed sentinel
`percentageChange = 100` and `isUnusual = true`, regardless of the
recent-window total. -/
theorem analyzeSpendingPatterns_zero_older_sentinel (now : Date)
    (transactions : List Transaction) (category : String)
    (hmem : category ∈ transactions.map (fun t => t.category))
    (hzero : olderTotalOf now transactions category = 0) :
    mkPattern now transactions category ∈ analyzeSpendingPatterns now transactions ∧
    (mkPattern now transactions category).percentageChange = 100 ∧
    (mkPattern now transactions category).isUnusual = true := by
  refine ⟨List.mem_map_of_mem _ (mem_dedupFirst.mpr hmem), ?_, ?_⟩
  · simp only [mkPattern, rawChange, hzero, if_pos]
    norm_num [jsRound]
  · simp only [mkPattern, rawChange, hzero, if_pos]
    norm_num

/-- Witness for claim C3: a single five-month-old transaction gives an
empty older window; the sentinel pattern is produced. -/
theorem analyzeSpendingPatterns_zero_older_sentinel_witness :
    ("food" ∈ ([⟨7, "c", "food", .expense, ⟨-5, 0⟩⟩] : List Transaction).map
        (fun t => t.category)) ∧
    olderTotalOf ⟨0, 0⟩ [⟨7, "c", "food", .expense, ⟨-5, 0⟩⟩] "food" = 0 ∧
    (mkPattern ⟨0, 0⟩ [⟨7, "c", "food", .expense, ⟨-5, 0⟩⟩] "food" ∈
        analyzeSpendingPatterns ⟨0, 0⟩ [⟨7, "c", "food", .expense, ⟨-5, 0⟩⟩] ∧
      (mkPattern ⟨0, 0⟩ [⟨7, "c", "food", .expense, ⟨-5, 0⟩⟩] "food").percentageChange = 100 ∧
      (mkPattern ⟨0, 0⟩ [⟨7, "c", "food", .expense, ⟨-5, 0⟩⟩] "food").isUnusual = true) := by
  have h1 : "food" ∈ ([⟨7, "c", "food", .expense, ⟨-5, 0⟩⟩] : List Transaction).map
      (fun t => t.category) := by simp
  have h2 : olderTotalOf ⟨0, 0⟩ [⟨7, "c", "food", .expense, ⟨-5, 0⟩⟩] "food" = 0 := by
    norm_num [olderTotalOf, dateLt, dateLe, subMonthsD]
  exact ⟨h1, h2, analyzeSpendingPatterns_zero_older_sentinel _ _ _ h1 h2⟩

/-- Counterexample to claim C5: with a reversed range (start in month 3,
end in month 1) `calculateMonthlyStats` does NOT produce an empty result:
date-fns v3+ enumerates the months of a reversed interval in reversed
order (and v2 threw), so three stats entries come back. -/
theorem calculateMonthlyStats_reversed_not_empty :
    calculateMonthlyStats (fun _ => 30) (fun _ => "") [] ⟨3, 0⟩ ⟨1, 0⟩ ≠ [] ∧
    (calculateMonthlyStats (fun _ => 30) (fun _ => "") [] ⟨3, 0⟩ ⟨1, 0⟩).length = 3 := by
  have h : (calculateMonthlyStats (fun _ => 30) (fun _ => "") [] ⟨3, 0⟩ ⟨1, 0⟩).length = 3 := by
    simp only [calculateMonthlyStats, List.length_map]
    norm_num [eachMonthOfInterval]
    rfl
  refine ⟨?_, h⟩
  intro hnil
  rw [hnil] at h
  simp at h

/-- Claim C5 as amended: `calculateMonthlyStats` never returns an empty
list; for a reversed range it returns one stats entry per month from the
start's month down to the end's month (reverse chronological order, per
date-fns v3+; date-fns v2 threw instead). -/
theorem calculateMonthlyStats_reversed_range (monthLen : ℤ → ℕ)
    (fmtMonth : ℤ → String) (transactions : List Transaction) (s e : Date) :
    (calculateMonthlyStats monthLen fmtMonth transactions s e).length =
      (if s.month ≤ e.month then e.month - s.month + 1 else s.month - e.month + 1).toNat ∧
    calculateMonthlyStats monthLen fmtMonth transactions s e ≠ [] := by
  have hlen : (calculateMonthlyStats monthLen fmtMonth transactions s e).length =
      (if s.month ≤ e.month then e.month - s.month + 1 else s.month - e.month + 1).toNat := by
    simp only [calculateMonthlyStats, List.length_map]
    unfold eachMonthOfInterval
    split <;> rw [List.length_map, List.length_range]
  refine ⟨hlen, ?_⟩
  intro hnil
  rw [hnil] at hlen
  simp only [List.length_nil] at hlen
  rcases le_or_lt s.month e.month with h | h
  · rw [if_pos h] at hlen; omega
  · rw [if_neg (not_le.mpr h)] at hlen; omega

/-- Claim C6: with fewer than two monthly entries, `generateForecast`
returns the zeroed forecast with risk "medium" and the single literal
recommendation, and `generateMonthlyForecast` returns exactly `months`
entries with income, expenses and balance all zero. -/
theorem insufficient_data_guard :
    (∀ l : List MonthlyStats, l.length < 2 →
      generateForecast l = ⟨0, 0, 0, "medium", ["Not enough data for accurate forecast"]⟩) ∧
    (∀ (monthName : ℕ → String) (l : List MonthlyStats) (months : ℕ), l.length < 2 →
      (generateMonthlyForecast monthName l months).length = months ∧
      (generateMonthlyForecast monthName l months).Forall
        (fun entry => entry.income = 0 ∧ entry.expenses = 0 ∧ entry.balance = 0)) := by
  constructor
  · intro l h
    simp [generateForecast, h]
  · intro monthName l months h
    constructor
    · simp [generateMonthlyForecast, h]
    · rw [List.forall_iff_forall_mem]
      intro entry hentry
      simp only [generateMonthlyForecast, if_pos h, List.mem_map] at hentry
      obtain ⟨i, _, heq⟩ := hentry
      rw [← heq]
      exact ⟨rfl, rfl, rfl⟩

/-- Witness for claim C6 at the empty history and a two-month horizon. -/
theorem insufficient_data_guard_witness :
    (([] : List MonthlyStats).length < 2) ∧
    generateForecast [] = ⟨0, 0, 0, "medium", ["Not enough data for accurate forecast"]⟩ ∧
    (generateMonthlyForecast (fun _ => "") [] 2).length = 2 ∧
    (generateMonthlyForecast (fun _ => "") [] 2).Forall
      (fun entry => entry.income = 0 ∧ entry.expenses = 0 ∧ entry.balance = 0) := by
  have h : ([] : List MonthlyStats).length < 2 := by simp
  exact ⟨h, insufficient_data_guard.1 [] h,
    (insufficient_data_guard.2 (fun _ => "") [] 2 h).1,
    (insufficient_data_guard.2 (fun _ => "") [] 2 h).2⟩

/-- Claim C7: with at least two monthly entries and predicted income 0,
the expense/income ratio check cannot fire: the risk level is "high"
exactly when the predicted balance is negative and "low" otherwise, never
"medium". -/
theorem generateForecast_zero_income_guard (l : List MonthlyStats)
    (hlen : 2 ≤ l.length) (hzero : predictedIncomeOf l = 0) :
    (generateForecast l).riskLevel =
      (if (generateForecast l).predictedBalance < 0 then "high" else "low") ∧
    (generateForecast l).riskLevel ≠ "medium" := by
  have hnot : ¬ l.length < 2 := by omega
  unfold generateForecast
  rw [if_neg hnot]
  dsimp only
  rw [hzero]
  simp only [Int.cast_zero, jsRound_zero_sub_intCast]
  rcases lt_trichotomy (predictedExpensesOf l) 0 with h | h | h
  · have h1 : ¬ (-predictedExpensesOf l < 0) := by omega
    have h2 : ((predictedExpensesOf l : ℚ)) < 0 := by exact_mod_cast h
    simp [h1, jsDivQ, jsGtQ, h2.ne, not_lt.mpr h2.le]
  · simp [h, jsDivQ, jsGtQ]
  · have h1 : -predictedExpensesOf l < 0 := by omega
    simp [h1]

/-- Witness for claim C7: history `[{income 2, expenses 0},
{income 1, expenses 2}]` predicts income 0 and a negative balance. -/
theorem generateForecast_zero_income_guard_witness :
    (2 ≤ ([⟨"", 2, 0, 2, [], 0, 0⟩, ⟨"", 1, 2, -1, [], 0, 0⟩] : List MonthlyStats).length) ∧
    predictedIncomeOf [⟨"", 2, 0, 2, [], 0, 0⟩, ⟨"", 1, 2, -1, [], 0, 0⟩] = 0 ∧
    ((generateForecast [⟨"", 2, 0, 2, [], 0, 0⟩, ⟨"", 1, 2, -1, [], 0, 0⟩]).riskLevel =
      (if (generateForecast [⟨"", 2, 0, 2, [], 0, 0⟩, ⟨"", 1, 2, -1, [], 0, 0⟩]).predictedBalance < 0
        then "high" else "low") ∧
      (generateForecast [⟨"", 2, 0, 2, [], 0, 0⟩, ⟨"", 1, 2, -1, [], 0, 0⟩]).riskLevel ≠ "medium") := by
  have h1 : 2 ≤ ([⟨"", 2, 0, 2, [], 0, 0⟩, ⟨"", 1, 2, -1, [], 0, 0⟩] : List MonthlyStats).length := by
    simp
  have h2 : predictedIncomeOf [⟨"", 2, 0, 2, [], 0, 0⟩, ⟨"", 1, 2, -1, [], 0, 0⟩] = 0 := by
    norm_num [predictedIncomeOf, lastMonthOf, avgIncomeChange, incomeChangeSum, jsRound]
  exact ⟨h1, h2, generateForecast_zero_income_guard _ h1 h2⟩

/-- The unusual-pattern insights are all of kind `info`, never `warning`. -/
lemma patternInsightsOf_filter_warning (ps : List SpendingPattern) :
    (patternInsightsOf ps).filter (fun i => decide (i.type = InsightType.warning)) = [] := by
  rw [List.filter_eq_nil_iff]
  intro a ha
  simp only [patternInsightsOf, List.mem_map] at ha
  obtain ⟨p, _, rfl⟩ := ha
  simp

/-- The large-transaction insight is of kind `info`, never `warning`. -/
lemma largeTxInsightsOf_filter_warning (fmtAmount : ℚ → String) (fmtDate : Date → String)
    (transactions : List Transaction) (monthlyStats : MonthlyStats) :
    (largeTxInsightsOf fmtAmount fmtDate transactions monthlyStats).filter
      (fun i => decide (i.type = InsightType.warning)) = [] := by
  rw [List.filter_eq_nil_iff]
  intro a ha
  simp only [largeTxInsightsOf] at ha
  split at ha
  · simp at ha
  · simp only [List.mem_singleton] at ha
    subst ha
    simp

/-- Claim C8: the savings-rate computation of `generateFinancialInsights`
never faults when `income = 0` — the comparison follows the IEEE values
(NaN / ±Infinity), so the result is fully determined (the warning fires,
with the "-Infinity" sentinel text, exactly when expenses are positive) —
and whenever `income > 0` and the savings rate is below 20% the function
emits exactly one `warning` insight, carrying the rounded savings rate and
the three fixed action items. -/
theorem generateFinancialInsights_savings_guard (fmtAmount : ℚ → String)
    (fmtDate : Date → String) (transactions : List Transaction)
    (monthlyStats : MonthlyStats) (spendingPatterns : List SpendingPattern) :
    (monthlyStats.income = 0 →
      generateFinancialInsights fmtAmount fmtDate transactions monthlyStats spendingPatterns =
        (if 0 < monthlyStats.expenses then [lowSavingsInsight "-Infinity"] else []) ++
          patternInsightsOf spendingPatterns ++
          largeTxInsightsOf fmtAmount fmtDate transactions monthlyStats) ∧
    (0 < monthlyStats.income →
      (monthlyStats.income - monthlyStats.expenses) / monthlyStats.income * 100 < 20 →
      (generateFinancialInsights fmtAmount fmtDate transactions monthlyStats
          spendingPatterns).filter (fun i => decide (i.type = InsightType.warning)) =
        [lowSavingsInsight (toString (jsRound
          ((monthlyStats.income - monthlyStats.expenses) / monthlyStats.income * 100)))]) := by
  constructor
  · intro h0
    unfold generateFinancialInsights
    dsimp only
    rw [h0]
    rcases lt_trichotomy monthlyStats.expenses 0 with h | h | h
    · norm_num [jsDivQ, jsMulQ, jsLtQ, h, h.ne, not_lt.mpr h.le]
    · simp [h, jsDivQ, jsMulQ, jsLtQ]
    · norm_num [jsDivQ, jsMulQ, jsLtQ, jsRoundStr, h, h.ne', not_lt.mpr h.le]
  · intro hpos hrate
    have hne : monthlyStats.income ≠ 0 := ne_of_gt hpos
    unfold generateFinancialInsights
    dsimp only
    simp [jsDivQ, hne, jsMulQ, jsLtQ, hrate, jsRoundStr, List.filter_append,
      List.filter_cons, lowSavingsInsight,
      patternInsightsOf_filter_warning, largeTxInsightsOf_filter_warning]

/-- Witness for claim C8: income 10, expenses 9 gives savings rate 10% and
exactly one warning insight. -/
theorem generateFinancialInsights_savings_guard_witness :
    (0 < ((⟨"", 10, 9, 1, [], 0, 0⟩ : MonthlyStats)).income) ∧
    ((⟨"", 10, 9, 1, [], 0, 0⟩ : MonthlyStats).income -
        (⟨"", 10, 9, 1, [], 0, 0⟩ : MonthlyStats).expenses) /
      (⟨"", 10, 9, 1, [], 0, 0⟩ : MonthlyStats).income * 100 < 20 ∧
    (generateFinancialInsights (fun _ => "") (fun _ => "") [] ⟨"", 10, 9, 1, [], 0, 0⟩
        []).filter (fun i => decide (i.type = InsightType.warning)) =
      [lowSavingsInsight (toString (jsRound
        ((((⟨"", 10, 9, 1, [], 0, 0⟩ : MonthlyStats)).income -
            (⟨"", 10, 9, 1, [], 0, 0⟩ : MonthlyStats).expenses) /
          (⟨"", 10, 9, 1, [], 0, 0⟩ : MonthlyStats).income * 100)))] := by
  have h1 : (0 : ℚ) < ((⟨"", 10, 9, 1, [], 0, 0⟩ : MonthlyStats)).income := by norm_num
  have h2 : ((⟨"", 10, 9, 1, [], 0, 0⟩ : MonthlyStats).income -
      (⟨"", 10, 9, 1, [], 0, 0⟩ : MonthlyStats).expenses) /
      (⟨"", 10, 9, 1, [], 0, 0⟩ : MonthlyStats).income * 100 < 20 := by norm_num
  exact ⟨h1, h2, (generateFinancialInsights_savings_guard (fun _ => "") (fun _ => "") []
    ⟨"", 10, 9, 1, [], 0, 0⟩ []).2 h1 h2⟩

/-- Claim C9: with positive expenses, the third sub-check of
`assessFinancialRisk` computes `savings / (expenses * 3)`; a ratio below
0.5 forces level `high`, and a ratio in [0.5, 1) with the level not
already `high` sets it to `medium`, in each case appending exactly one
factor and one mitigation string. -/
theorem emergency_fund_check (m : MonthlyStats) (r : RiskAssessment)
    (hpos : 0 < m.expenses) :
    (m.savings / (m.expenses * 3) < 0.5 →
      riskStep3 m r = ⟨.high, r.factors ++ ["Insufficient emergency fund"],
        r.mitigationSteps ++ ["Build emergency fund to cover 3 months of expenses"]⟩) ∧
    (0.5 ≤ m.savings / (m.expenses * 3) → m.savings / (m.expenses * 3) < 1 →
      r.level ≠ .high →
      riskStep3 m r = ⟨.medium, r.factors ++ ["Emergency fund below target"],
        r.mitigationSteps ++ ["Continue building emergency fund"]⟩) ∧
    (∀ ps, assessFinancialRisk m ps =
      riskStep3 m (riskStep2 ps (riskStep1 m initialRisk))) := by
  have hne : m.expenses * 3 ≠ 0 := (mul_pos hpos (by norm_num)).ne'
  refine ⟨?_, ?_, fun ps => rfl⟩
  · intro hlt
    simp [riskStep3, jsDivQ, hne, jsLtQ, hlt]
  · intro hge hlt hnh
    simp [riskStep3, jsDivQ, hne, jsLtQ, not_lt.mpr hge, hlt, hnh]

/-- Witness for claim C9: expenses 1, savings 0.2 gives ratio 1/15 < 0.5
and the `high` outcome. -/
theorem emergency_fund_check_witness :
    (0 < ((⟨"", 0, 1, -1, [], 0.2, 0⟩ : MonthlyStats)).expenses) ∧
    ((⟨"", 0, 1, -1, [], 0.2, 0⟩ : MonthlyStats)).savings /
      (((⟨"", 0, 1, -1, [], 0.2, 0⟩ : MonthlyStats)).expenses * 3) < 0.5 ∧
    riskStep3 ⟨"", 0, 1, -1, [], 0.2, 0⟩ initialRisk =
      ⟨.high, initialRisk.factors ++ ["Insufficient emergency fund"],
        initialRisk.mitigationSteps ++
          ["Build emergency fund to cover 3 months of expenses"]⟩ := by
  have h1 : (0 : ℚ) < ((⟨"", 0, 1, -1, [], 0.2, 0⟩ : MonthlyStats)).expenses := by norm_num
  have h2 : ((⟨"", 0, 1, -1, [], 0.2, 0⟩ : MonthlyStats)).savings /
      (((⟨"", 0, 1, -1, [], 0.2, 0⟩ : MonthlyStats)).expenses * 3) < 0.5 := by norm_num
  exact ⟨h1, h2, (emergency_fund_check ⟨"", 0, 1, -1, [], 0.2, 0⟩ initialRisk h1).1 h2⟩

/-- Claim C10: `analyzeSpendingPatterns` classifies the trend and the
unusual flag on the exact pre-rounding percentage change while reporting
the rounded value: there is an input whose pattern has `isUnusual = true`
with reported change exactly 30, and one whose pattern is `stable` with
reported change exactly 5. -/
theorem spendingPattern_rounding_boundaries :
    (∃ (now : Date) (txs : List Transaction) (p : SpendingPattern),
      p ∈ analyzeSpendingPatterns now txs ∧ p.isUnusual = true ∧ p.percentageChange = 30) ∧
    (∃ (now : Date) (txs : List Transaction) (p : SpendingPattern),
      p ∈ analyzeSpendingPatterns now txs ∧ p.trend = .stable ∧ p.percentageChange = 5) ∧
    (∀ (now : Date) (txs : List Transaction) (c : String),
      (mkPattern now txs c).percentageChange = jsRound (rawChange now txs c) ∧
      ((mkPattern now txs c).isUnusual = true ↔ 30 < |rawChange now txs c|) ∧
      ((mkPattern now txs c).trend = .stable ↔ |rawChange now txs c| < 5)) := by
  refine ⟨?_, ?_, ?_⟩
  · refine ⟨⟨0, 0⟩, [⟨1000, "c", "a", .expense, ⟨-2, 0⟩⟩, ⟨1304, "c", "a", .expense, ⟨0, 0⟩⟩],
      ⟨"a", .increasing, 30, true, 1304⟩, ?_, rfl, rfl⟩
    have h : analyzeSpendingPatterns ⟨0, 0⟩
        [⟨1000, "c", "a", .expense, ⟨-2, 0⟩⟩, ⟨1304, "c", "a", .expense, ⟨0, 0⟩⟩] =
        [⟨"a", .increasing, 30, true, 1304⟩] := by
      norm_num [analyzeSpendingPatterns, dedupFirst, mkPattern, rawChange, olderTotalOf,
        recentTotalOf, dateLe, dateLt, subMonthsD, jsRound, abs_of_pos]
    rw [h]
    exact List.mem_singleton.mpr rfl
  · refine ⟨⟨0, 0⟩, [⟨1000, "c", "b", .expense, ⟨-2, 0⟩⟩, ⟨1046, "c", "b", .expense, ⟨0, 0⟩⟩],
      ⟨"b", .stable, 5, false, 1046⟩, ?_, rfl, rfl⟩
    have h : analyzeSpendingPatterns ⟨0, 0⟩
        [⟨1000, "c", "b", .expense, ⟨-2, 0⟩⟩, ⟨1046, "c", "b", .expense, ⟨0, 0⟩⟩] =
        [⟨"b", .stable, 5, false, 1046⟩] := by
      norm_num [analyzeSpendingPatterns, dedupFirst, mkPattern, rawChange, olderTotalOf,
        recentTotalOf, dateLe, dateLt, subMonthsD, jsRound, abs_of_pos]
    rw [h]
    exact List.mem_singleton.mpr rfl
  · intro now txs c
    refine ⟨rfl, ?_, ?_⟩
    · simp [mkPattern]
    · by_cases h : |rawChange now txs c| < 5
      · simp [mkPattern, h]
      · simp only [mkPattern, if_neg h]
        split <;> simp [h]

end FinForecast
